import Mathlib

/-!
# GameBench desktop — FPS monitoring engine, verified model

A shallow embedding of the GameBench desktop FPS-monitoring pipeline.

The repository ships the React frontend (`src/lib/tauri-api.ts`,
`src/lib/types.ts`, `src/pages/FpsMonitor.tsx`) together with the project
documentation; the Rust engine (`src-tauri/src/fps_monitor.rs`) is not part
of the frontend sources, so the windowed FPS calculator, the session
aggregator and the monitoring state machine are modelled from the
specification (§4.3, §4.4, §4.5, §6, §7).  Frame times are embedded as
rationals, so every stated equality and inequality is exact.
-/

namespace GameBench

/-! ## Windowed FPS metrics (§4.3) -/

/-- Modelled from the spec: the §4.3 windowed calculator's sort step is
missing from the frontend sources.  Sort a window of frame times in
descending order (slowest frames first). -/
def sortDesc (T : List ℚ) : List ℚ :=
  List.insertionSort (· ≥ ·) T

/-- Mean of a list of rationals (0 for the empty list, by `q / 0 = 0`). -/
def meanQ (l : List ℚ) : ℚ :=
  l.sum / l.length

/-- Modelled from the spec: length of the "low" prefix, `ceil(n * p)` with a
minimum of 1, for a window of `n` frames and percentile fraction `p`. -/
def lowCount (p : ℚ) (n : ℕ) : ℕ :=
  max 1 ⌈(n : ℚ) * p⌉₊

/-- Modelled from the spec: the "percent low" FPS metric of §4.3 — average
FPS over the slowest `lowCount p n` frames of the window. -/
def lowFps (p : ℚ) (T : List ℚ) : ℚ :=
  1000 / meanQ ((sortDesc T).take (lowCount p T.length))

/-- Modelled from the spec: the "1% low" metric (`p = 0.01`). -/
def fps1Low (T : List ℚ) : ℚ :=
  lowFps (1 / 100) T

/-- Modelled from the spec: the "0.1% low" metric (`p = 0.001`). -/
def fps01Low (T : List ℚ) : ℚ :=
  lowFps (1 / 1000) T

/-- Modelled from the spec: windowed FPS, `1000 * n / sum(T)`, with the §4.3
edge case `fps = 0` for an empty window. -/
def windowFps (T : List ℚ) : ℚ :=
  if T.isEmpty then 0 else 1000 * T.length / T.sum

/-- Modelled from the spec: the slowest (largest) frame time of a window. -/
def slowestFrame (T : List ℚ) : ℚ :=
  (sortDesc T).headD 0

/-- Modelled from the spec: the fastest (smallest) frame time of a window. -/
def fastestFrame (T : List ℚ) : ℚ :=
  (sortDesc T).getLastD 0

/-- Modelled from the spec: the maximum instantaneous per-frame FPS
(`1000 / frame_time_ms` at the fastest frame). -/
def maxInstFps (T : List ℚ) : ℚ :=
  1000 / fastestFrame T

/-- Modelled from the spec: the minimum instantaneous per-frame FPS
(`1000 / frame_time_ms` at the slowest frame). -/
def minInstFps (T : List ℚ) : ℚ :=
  1000 / slowestFrame T

/-- `FpsSnapshot` — mirrors `FpsSnapshot` in `src/lib/types.ts` (floats
embedded as rationals). -/
structure FpsSnapshot where
  fps : ℚ
  fps_1_low : ℚ
  fps_01_low : ℚ
  frametime_ms : ℚ
  cpu_busy_ms : ℚ
  gpu_busy_ms : ℚ
  process_name : String
  elapsed_secs : ℚ
deriving DecidableEq

/-- Modelled from the spec: the §4.3 snapshot computation over the current
window's frame times and per-frame CPU/GPU busy times. -/
def computeSnapshot (name : String) (T cpu gpu : List ℚ) (elapsed : ℚ) :
    FpsSnapshot where
  fps := windowFps T
  fps_1_low := fps1Low T
  fps_01_low := fps01Low T
  frametime_ms := meanQ T
  cpu_busy_ms := meanQ cpu
  gpu_busy_ms := meanQ gpu
  process_name := name
  elapsed_secs := elapsed

/-! ## Session aggregator (§4.4) -/

/-- `FpsSession` — mirrors `FpsSession` in `src/lib/types.ts`. -/
structure FpsSession where
  process_name : String
  avg_fps : ℚ
  fps_1_low : ℚ
  fps_01_low : ℚ
  max_fps : ℚ
  min_fps : ℚ
  total_frames : ℕ
  duration_secs : ℚ
deriving DecidableEq

/-- Modelled from the spec: the §4.4 end-of-run summary over all frame times
of the session; a run with zero frames reports zeroed statistics. -/
def finalizeSession (name : String) (T : List ℚ) (dur : ℚ) : FpsSession :=
  if T.isEmpty then
    { process_name := name, avg_fps := 0, fps_1_low := 0, fps_01_low := 0
      max_fps := 0, min_fps := 0, total_frames := 0, duration_secs := dur }
  else
    { process_name := name
      avg_fps := 1000 * T.length / T.sum
      fps_1_low := fps1Low T
      fps_01_low := fps01Low T
      max_fps := maxInstFps T
      min_fps := minInstFps T
      total_frames := T.length
      duration_secs := dur }

/-! ## Monitoring session state machine and events (§4.5, §6, §7) -/

/-- Lifecycle events delivered to the frontend (payload shapes from
`src/lib/tauri-api.ts`: process name, snapshot, session, error string). -/
inductive EngineEvent where
  | monitoringStarted (processName : String)
  | fpsUpdate (snap : FpsSnapshot)
  | monitoringStopped (processName : String)
  | sessionComplete (session : FpsSession)
  | monitoringError (description : String)
deriving DecidableEq

/-- Modelled from the spec: the §4.5 state-machine states. -/
inductive EngineStateKind where
  | stopped
  | starting
  | running
  | stopping
  | faulted
deriving DecidableEq

/-- Modelled from the spec: the internal `MonitoringSession` state owned by
the engine (§3): lifecycle state, active process name and the aggregator's
accumulated frame times and elapsed duration. -/
structure EngineState where
  kind : EngineStateKind
  processName : Option String
  frames : List ℚ
  duration : ℚ
deriving DecidableEq

/-- Synchronous errors of the `start` command (§7 taxonomy). -/
inductive StartError where
  | invalidInput
  | alreadyRunning
deriving DecidableEq

/-- JavaScript `String.prototype.trim` on the character list: drop leading
and trailing whitespace (used by `handleStart` in `FpsMonitor.tsx`). -/
def trimChars (l : List Char) : List Char :=
  ((l.dropWhile Char.isWhitespace).reverse.dropWhile Char.isWhitespace).reverse

/-- JavaScript-style `trim` of a string, via `trimChars`. -/
def jsTrim (s : String) : String :=
  ⟨trimChars s.data⟩

/-- Modelled from the spec: the §4.5 `start(process_name)` command.  Valid
only from `Stopped` (any other state rejects with `AlreadyRunning`); an
empty/whitespace process name is rejected with `InvalidInput` before any
subprocess is spawned.  Returns the synchronous result and the new state. -/
def startMonitor (s : EngineState) (name : String) :
    Except StartError Unit × EngineState :=
  if s.kind ≠ EngineStateKind.stopped then
    (Except.error StartError.alreadyRunning, s)
  else if jsTrim name = "" then
    (Except.error StartError.invalidInput, s)
  else
    (Except.ok (),
      { kind := EngineStateKind.starting, processName := some name
        frames := [], duration := 0 })

/-- Modelled from the spec: the error description reported when the capture
stream ends with zero frames ever received (§7 `UnexpectedExit`). -/
def noFramesError : String :=
  "no frames received: target process was never running or exited instantly"

/-- Modelled from the spec: events emitted on end-of-stream (§4.5, §7): the
finalized summary exactly once, an additional `monitoring-error` when zero
frames were ever received, then the stopped notification. -/
def endOfStreamEvents (name : String) (T : List ℚ) (dur : ℚ) :
    List EngineEvent :=
  [EngineEvent.sessionComplete (finalizeSession name T dur)]
    ++ (if T.isEmpty then [EngineEvent.monitoringError noFramesError] else [])
    ++ [EngineEvent.monitoringStopped name]

/-! ## Frontend command surface — `src/lib/tauri-api.ts`, `src/lib/types.ts` -/

/-- `FpsStatus` — mirrors `FpsStatus` in `src/lib/types.ts`. -/
structure FpsStatus where
  running : Bool
  process_name : Option String
  current_fps : Option ℚ
deriving DecidableEq

/-- Types of the fields of the `FpsStatus` record. -/
inductive FieldTy where
  | bool
  | optString
  | optFloat
deriving DecidableEq

/-- The field list of `FpsStatus` as declared in `src/lib/types.ts`. -/
def fpsStatusFields : List (String × FieldTy) :=
  [("running", FieldTy.bool),
   ("process_name", FieldTy.optString),
   ("current_fps", FieldTy.optFloat)]

/-- Modelled from the spec: the status record of the §6 command surface,
`{running: bool, process_name: string?, current_fps: float?}`. -/
def specStatusFields : List (String × FieldTy) :=
  [("running", FieldTy.bool),
   ("process_name", FieldTy.optString),
   ("current_fps", FieldTy.optFloat)]

/-- Parameter types of an engine command. -/
inductive ParamTy where
  | string
deriving DecidableEq

/-- Return shape of an engine command: plain ok, or the status record. -/
inductive RetTy where
  | unit
  | statusRecord
deriving DecidableEq

/-- Signature of one engine command. -/
structure CommandSig where
  name : String
  params : List ParamTy
  ret : RetTy
deriving DecidableEq

/-- The FPS-monitoring commands invoked by the frontend wrappers
`startFpsMonitor`, `stopFpsMonitor`, `getFpsStatus` in
`src/lib/tauri-api.ts`. -/
def fpsMonitorCommands : List CommandSig :=
  [{ name := "start_fps_monitor", params := [ParamTy.string], ret := RetTy.unit },
   { name := "stop_fps_monitor", params := [], ret := RetTy.unit },
   { name := "get_fps_status", params := [], ret := RetTy.statusRecord }]

/-! ## Frontend event subscriptions — `src/lib/tauri-api.ts` -/

/-- The five lifecycle event kinds of the §6 emitted-events table. -/
inductive FpsEventKind where
  | started
  | update
  | stopped
  | sessionComplete
  | error
deriving DecidableEq

/-- Payload shape of a lifecycle event. -/
inductive PayloadKind where
  | processName
  | snapshot
  | session
  | errorDescription
deriving DecidableEq

/-- The event name each frontend listener subscribes to, from the `listen`
calls in `onFpsStarted`, `onFpsUpdate`, `onFpsStopped`,
`onFpsSessionComplete`, `onFpsError` in `src/lib/tauri-api.ts`. -/
def frontendEventName : FpsEventKind → String
  | FpsEventKind.started => "fps-started"
  | FpsEventKind.update => "fps-update"
  | FpsEventKind.stopped => "fps-stopped"
  | FpsEventKind.sessionComplete => "fps-session-complete"
  | FpsEventKind.error => "fps-error"

/-- The payload type of each frontend listener's callback, from the type
parameters of the `listen` calls in `src/lib/tauri-api.ts`. -/
def frontendPayload : FpsEventKind → PayloadKind
  | FpsEventKind.started => PayloadKind.processName
  | FpsEventKind.update => PayloadKind.snapshot
  | FpsEventKind.stopped => PayloadKind.processName
  | FpsEventKind.sessionComplete => PayloadKind.session
  | FpsEventKind.error => PayloadKind.errorDescription

/-- Modelled from the spec: the event names of the §6 emitted-events
table. -/
def specTableEventName : FpsEventKind → String
  | FpsEventKind.started => "monitoring-started"
  | FpsEventKind.update => "fps-update"
  | FpsEventKind.stopped => "monitoring-stopped"
  | FpsEventKind.sessionComplete => "session-complete"
  | FpsEventKind.error => "monitoring-error"

/-- Modelled from the spec: the payload column of the §6 emitted-events
table. -/
def specTablePayload : FpsEventKind → PayloadKind
  | FpsEventKind.started => PayloadKind.processName
  | FpsEventKind.update => PayloadKind.snapshot
  | FpsEventKind.stopped => PayloadKind.processName
  | FpsEventKind.sessionComplete => PayloadKind.session
  | FpsEventKind.error => PayloadKind.errorDescription

/-! ## FPS monitor page — `src/pages/FpsMonitor.tsx` -/

/-- `MAX_CHART_POINTS` in `FpsMonitor.tsx`. -/
def MAX_CHART_POINTS : ℕ := 120

/-- JavaScript `Array.prototype.slice` with a negative start index `-k`:
the last `min k length` elements. -/
def jsSliceLast (l : List FpsSnapshot) (k : ℕ) : List FpsSnapshot :=
  l.drop (l.length - k)

/-- The `onFpsUpdate` handler's chart update in `FpsMonitor.tsx`:
`[...chartRef.current.slice(-MAX_CHART_POINTS + 1), snap]`. -/
def pushSnapshot (chart : List FpsSnapshot) (snap : FpsSnapshot) :
    List FpsSnapshot :=
  jsSliceLast chart (MAX_CHART_POINTS - 1) ++ [snap]

/-- The chart contents after a sequence of `fps-update` events, starting
from the initially empty chart. -/
def chartAfter (snaps : List FpsSnapshot) : List FpsSnapshot :=
  snaps.foldl pushSnapshot []

/-- Display state of the FPS monitor page (`useState`/`useRef` hooks in
`FpsMonitor.tsx`): the running flag, the error banner, the session summary,
the `latest` snapshot shown on the stat cards, the rendered `snapshots`
series and the `chartRef` buffer backing it. -/
structure MonitorPageState where
  running : Bool
  error : Option String
  session : Option FpsSession
  latest : Option FpsSnapshot
  snapshots : List FpsSnapshot
  chart : List FpsSnapshot
deriving DecidableEq

/-- The error message set by `handleStart` for an empty process name. -/
def emptyNameMessage : String := "请输入或选择游戏进程名"

/-- The `handleStart` function of `FpsMonitor.tsx`, up to the `await` of
`startFpsMonitor`: returns the page state at that point and whether the
`start_fps_monitor` command is invoked at all.  It calls `setError`,
`setSession`, `setSnapshots` and resets `chartRef`, but never `setLatest`:
the `latest` snapshot is left as it was. -/
def handleStart (s : MonitorPageState) (processName : String) :
    MonitorPageState × Bool :=
  if jsTrim processName = "" then
    ({ s with error := some emptyNameMessage }, false)
  else
    ({ s with error := none, session := none, snapshots := [], chart := [] },
      true)

/-! ## Helper lemmas about descending sorts and means -/

lemma sortDesc_sorted (T : List ℚ) : (sortDesc T).Sorted (· ≥ ·) :=
  List.sorted_insertionSort _ T

lemma sortDesc_perm (T : List ℚ) : List.Perm (sortDesc T) T :=
  List.perm_insertionSort _ T

lemma sortDesc_sum (T : List ℚ) : (sortDesc T).sum = T.sum :=
  (sortDesc_perm T).sum_eq

lemma sortDesc_length (T : List ℚ) : (sortDesc T).length = T.length :=
  (sortDesc_perm T).length_eq

lemma mem_sortDesc {T : List ℚ} {x : ℚ} : x ∈ sortDesc T ↔ x ∈ T :=
  (sortDesc_perm T).mem_iff

lemma sortDesc_ne_nil {T : List ℚ} (h : T ≠ []) : sortDesc T ≠ [] := by
  intro h0
  exact h (List.length_eq_zero.mp (by rw [← sortDesc_length, h0, List.length_nil]))

lemma getLastD_mem : ∀ (l : List ℚ) (d : ℚ), l ≠ [] → l.getLastD d ∈ l
  | [], _, h => absurd rfl h
  | [a], d, _ => by simp [List.getLastD]
  | a :: b :: t, d, _ => by
      rw [List.getLastD_cons]
      exact List.mem_cons_of_mem a (getLastD_mem (b :: t) a (by simp))

lemma sorted_getLastD_le :
    ∀ (l : List ℚ), l.Sorted (· ≥ ·) → ∀ (d : ℚ), ∀ x ∈ l, l.getLastD d ≤ x
  | [], _, _, x, hx => absurd hx (List.not_mem_nil x)
  | a :: t, hs, d, x, hx => by
      rw [List.getLastD_cons]
      rcases List.mem_cons.mp hx with rfl | hxt
      · rcases eq_or_ne t [] with rfl | hne
        · simp [List.getLastD]
        · exact List.rel_of_sorted_cons hs _ (getLastD_mem t x hne)
      · exact sorted_getLastD_le t hs.of_cons a x hxt

lemma sorted_le_headD (l : List ℚ) (hs : l.Sorted (· ≥ ·)) (d : ℚ) :
    ∀ x ∈ l, x ≤ l.headD d := by
  cases l with
  | nil => intro x hx; exact absurd hx (List.not_mem_nil x)
  | cons a t =>
    intro x hx
    rcases List.mem_cons.mp hx with rfl | hxt
    · exact le_refl x
    · exact List.rel_of_sorted_cons hs x hxt

/-- For a descending-sorted list, a shorter prefix has the larger average:
cross-multiplied form. -/
lemma prefix_sum_mul_le (l : List ℚ) (hs : l.Sorted (· ≥ ·)) {k m : ℕ}
    (hkm : k ≤ m) :
    (l.take m).sum * ((l.take k).length : ℚ) ≤
      (l.take k).sum * ((l.take m).length : ℚ) := by
  have h1 : (l.take m).take k = l.take k := by
    rw [List.take_take, min_eq_left hkm]
  have hsplit : l.take m = l.take k ++ (l.take m).drop k := by
    conv_lhs => rw [← List.take_append_drop k (l.take m)]
    rw [h1]
  have hBsub : (l.take m).drop k ⊆ l.drop k := by
    rw [List.drop_take]
    exact List.take_subset _ _
  rcases eq_or_ne (l.take k) [] with hA0 | hAne
  · rw [hA0]
    simp
  · have hsortA : (l.take k).Sorted (· ≥ ·) :=
      List.Pairwise.sublist (List.take_sublist k l) hs
    have hcA : (l.take k).getLastD 0 ∈ l.take k := getLastD_mem _ _ hAne
    have hcle : ∀ x ∈ l.take k, (l.take k).getLastD 0 ≤ x :=
      sorted_getLastD_le _ hsortA 0
    have hBc : ∀ y ∈ (l.take m).drop k, y ≤ (l.take k).getLastD 0 := by
      intro y hy
      exact hs.rel_of_mem_take_of_mem_drop hcA (hBsub hy)
    have hsum1 : ((l.take m).drop k).sum ≤
        ((l.take m).drop k).length • (l.take k).getLastD 0 :=
      List.sum_le_card_nsmul _ _ hBc
    have hsum2 : (l.take k).length • (l.take k).getLastD 0 ≤ (l.take k).sum :=
      List.card_nsmul_le_sum _ _ hcle
    rw [hsplit, List.sum_append, List.length_append]
    rw [nsmul_eq_mul] at hsum1 hsum2
    push_cast
    nlinarith [Nat.cast_nonneg (α := ℚ) (l.take k).length,
      Nat.cast_nonneg (α := ℚ) ((l.take m).drop k).length]

lemma meanQ_pos {l : List ℚ} (hpos : ∀ x ∈ l, 0 < x) (hne : l ≠ []) :
    0 < meanQ l := by
  unfold meanQ
  exact div_pos (List.sum_pos l hpos hne)
    (by exact_mod_cast List.length_pos.mpr hne)

lemma meanQ_le_of_forall_le {l : List ℚ} (hne : l ≠ []) {c : ℚ}
    (hc : ∀ x ∈ l, x ≤ c) : meanQ l ≤ c := by
  unfold meanQ
  rw [div_le_iff (by exact_mod_cast List.length_pos.mpr hne)]
  calc l.sum ≤ l.length • c := List.sum_le_card_nsmul l c hc
    _ = c * l.length := by rw [nsmul_eq_mul]; ring

lemma le_meanQ_of_forall_le {l : List ℚ} (hne : l ≠ []) {c : ℚ}
    (hc : ∀ x ∈ l, c ≤ x) : c ≤ meanQ l := by
  unfold meanQ
  rw [le_div_iff (by exact_mod_cast List.length_pos.mpr hne)]
  calc c * l.length = l.length • c := by rw [nsmul_eq_mul]; ring
    _ ≤ l.sum := List.card_nsmul_le_sum l c hc

lemma meanQ_take_le_take (l : List ℚ) (hs : l.Sorted (· ≥ ·)) (hne : l ≠ [])
    {k m : ℕ} (hk : 1 ≤ k) (hkm : k ≤ m) :
    meanQ (l.take m) ≤ meanQ (l.take k) := by
  have hlen : 0 < l.length := List.length_pos.mpr hne
  have hlk : 0 < (l.take k).length := by rw [List.length_take]; omega
  have hlm : 0 < (l.take m).length := by rw [List.length_take]; omega
  unfold meanQ
  rw [div_le_div_iff (by exact_mod_cast hlm) (by exact_mod_cast hlk)]
  exact prefix_sum_mul_le l hs hkm

lemma one_le_lowCount (p : ℚ) (n : ℕ) : 1 ≤ lowCount p n :=
  le_max_left _ _

lemma lowCount_mono {p q : ℚ} (hpq : p ≤ q) (n : ℕ) :
    lowCount p n ≤ lowCount q n := by
  unfold lowCount
  exact max_le_max le_rfl (Nat.ceil_mono (by gcongr))

lemma lowCount_le_length {p : ℚ} (hp1 : p ≤ 1) {n : ℕ} (hn : 1 ≤ n) :
    lowCount p n ≤ n := by
  unfold lowCount
  refine max_le hn ?one
  rw [Nat.ceil_le]
  calc (n : ℚ) * p ≤ (n : ℚ) * 1 := by gcongr
    _ = n := mul_one _

lemma windowFps_eq_div_mean (T : List ℚ) (hne : T ≠ []) (hsum : T.sum ≠ 0) :
    windowFps T = 1000 / meanQ T := by
  unfold windowFps meanQ
  rw [if_neg (by simpa using hne)]
  have hlen : ((T.length : ℚ)) ≠ 0 := by
    exact_mod_cast (List.length_pos.mpr hne).ne'
  field_simp

lemma take_sortDesc_ne_nil {T : List ℚ} (hne : T ≠ []) {k : ℕ} (hk : 1 ≤ k) :
    (sortDesc T).take k ≠ [] := by
  have hlen : 0 < T.length := List.length_pos.mpr hne
  apply List.length_pos.mp
  rw [List.length_take, sortDesc_length]
  omega

lemma take_sortDesc_pos {T : List ℚ} (hpos : ∀ t ∈ T, 0 < t) (k : ℕ) :
    ∀ x ∈ (sortDesc T).take k, 0 < x :=
  fun x hx => hpos x (mem_sortDesc.mp (List.take_subset _ _ hx))

lemma meanQ_sortDesc (T : List ℚ) : meanQ (sortDesc T) = meanQ T := by
  unfold meanQ
  rw [sortDesc_sum, sortDesc_length]

lemma fps01Low_le_fps1Low (T : List ℚ) (hne : T ≠ []) (hpos : ∀ t ∈ T, 0 < t) :
    fps01Low T ≤ fps1Low T := by
  have hS : (sortDesc T).Sorted (· ≥ ·) := sortDesc_sorted T
  have hSne : sortDesc T ≠ [] := sortDesc_ne_nil hne
  have hk01 : 1 ≤ lowCount (1 / 1000) T.length := one_le_lowCount _ _
  have hk1 : 1 ≤ lowCount (1 / 100) T.length := one_le_lowCount _ _
  have hk01k1 : lowCount (1 / 1000) T.length ≤ lowCount (1 / 100) T.length :=
    lowCount_mono (by norm_num) _
  have hm01 : 0 < meanQ ((sortDesc T).take (lowCount (1 / 1000) T.length)) :=
    meanQ_pos (take_sortDesc_pos hpos _) (take_sortDesc_ne_nil hne hk01)
  have hm1 : 0 < meanQ ((sortDesc T).take (lowCount (1 / 100) T.length)) :=
    meanQ_pos (take_sortDesc_pos hpos _) (take_sortDesc_ne_nil hne hk1)
  unfold fps01Low fps1Low lowFps
  rw [div_le_div_left (by norm_num) hm01 hm1]
  exact meanQ_take_le_take _ hS hSne hk01 hk01k1

lemma fps1Low_le_windowFps (T : List ℚ) (hne : T ≠ []) (hpos : ∀ t ∈ T, 0 < t) :
    fps1Low T ≤ windowFps T := by
  have hS : (sortDesc T).Sorted (· ≥ ·) := sortDesc_sorted T
  have hSne : sortDesc T ≠ [] := sortDesc_ne_nil hne
  have hn : 1 ≤ T.length := List.length_pos.mpr hne
  have hk1 : 1 ≤ lowCount (1 / 100) T.length := one_le_lowCount _ _
  have hk1n : lowCount (1 / 100) T.length ≤ T.length :=
    lowCount_le_length (by norm_num) hn
  have hm1 : 0 < meanQ ((sortDesc T).take (lowCount (1 / 100) T.length)) :=
    meanQ_pos (take_sortDesc_pos hpos _) (take_sortDesc_ne_nil hne hk1)
  have hmT : 0 < meanQ T := meanQ_pos hpos hne
  have hsum : T.sum ≠ 0 := (List.sum_pos T hpos hne).ne'
  rw [windowFps_eq_div_mean T hne hsum]
  unfold fps1Low lowFps
  rw [div_le_div_left (by norm_num) hm1 hmT]
  have hmono := meanQ_take_le_take (sortDesc T) hS hSne
    (k := lowCount (1 / 100) T.length) (m := (sortDesc T).length) hk1
    (by rw [sortDesc_length]; exact hk1n)
  rw [List.take_length, meanQ_sortDesc] at hmono
  exact hmono

lemma fastestFrame_pos {T : List ℚ} (hne : T ≠ []) (hpos : ∀ t ∈ T, 0 < t) :
    0 < fastestFrame T :=
  hpos _ (mem_sortDesc.mp (getLastD_mem _ 0 (sortDesc_ne_nil hne)))

lemma slowestFrame_mem {T : List ℚ} (hne : T ≠ []) :
    slowestFrame T ∈ sortDesc T := by
  obtain ⟨a, t, h⟩ := List.exists_cons_of_ne_nil (sortDesc_ne_nil hne)
  rw [slowestFrame, h]
  exact List.mem_cons_self a t

lemma slowestFrame_pos {T : List ℚ} (hne : T ≠ []) (hpos : ∀ t ∈ T, 0 < t) :
    0 < slowestFrame T :=
  hpos _ (mem_sortDesc.mp (slowestFrame_mem hne))

lemma windowFps_le_maxInstFps (T : List ℚ) (hne : T ≠ [])
    (hpos : ∀ t ∈ T, 0 < t) : windowFps T ≤ maxInstFps T := by
  have hS : (sortDesc T).Sorted (· ≥ ·) := sortDesc_sorted T
  have hSne : sortDesc T ≠ [] := sortDesc_ne_nil hne
  have hmT : 0 < meanQ T := meanQ_pos hpos hne
  have hfast : 0 < fastestFrame T := fastestFrame_pos hne hpos
  have hsum : T.sum ≠ 0 := (List.sum_pos T hpos hne).ne'
  rw [windowFps_eq_div_mean T hne hsum]
  unfold maxInstFps
  rw [div_le_div_left (by norm_num) hmT hfast]
  have hle : ∀ x ∈ sortDesc T, fastestFrame T ≤ x :=
    sorted_getLastD_le _ hS 0
  have := le_meanQ_of_forall_le hSne hle
  rwa [meanQ_sortDesc] at this

lemma minInstFps_le_windowFps (T : List ℚ) (hne : T ≠ [])
    (hpos : ∀ t ∈ T, 0 < t) : minInstFps T ≤ windowFps T := by
  have hS : (sortDesc T).Sorted (· ≥ ·) := sortDesc_sorted T
  have hSne : sortDesc T ≠ [] := sortDesc_ne_nil hne
  have hmT : 0 < meanQ T := meanQ_pos hpos hne
  have hslow : 0 < slowestFrame T := slowestFrame_pos hne hpos
  have hsum : T.sum ≠ 0 := (List.sum_pos T hpos hne).ne'
  rw [windowFps_eq_div_mean T hne hsum]
  unfold minInstFps
  rw [div_le_div_left (by norm_num) hslow hmT]
  have hle : ∀ x ∈ sortDesc T, x ≤ slowestFrame T :=
    sorted_le_headD _ hS 0
  have := meanQ_le_of_forall_le hSne hle
  rwa [meanQ_sortDesc] at this

/-! ## Claims -/

/-- C1: For every window containing n ≥ 1 frame times T (milliseconds), the
windowed FPS snapshot's fps field equals 1000 * n / sum(T), the frame rate
implied by total window time. -/
theorem C1_window_fps (name : String) (T cpu gpu : List ℚ) (elapsed : ℚ)
    (hne : T ≠ []) :
    (computeSnapshot name T cpu gpu elapsed).fps = 1000 * T.length / T.sum := by
  show windowFps T = _
  unfold windowFps
  rw [if_neg (by simpa using hne)]

/-- Witness for C1 at the window [10, 10]. -/
theorem C1_window_fps_witness :
    (computeSnapshot "game.exe" [10, 10] [] [] 0).fps =
      1000 * (([10, 10] : List ℚ).length : ℚ) / ([10, 10] : List ℚ).sum :=
  C1_window_fps "game.exe" [10, 10] [] [] 0 (by simp)

/-- C2: For every non-empty list of n frame times T, the 1% low and 0.1% low
metrics are computed by sorting T descending, taking the prefix of the
slowest ceil(n * p) frames for p = 0.01 and p = 0.001 (with prefix length at
least 1 when n ≥ 1), and returning 1000 / mean(prefix). -/
theorem C2_low_metrics (name : String) (T cpu gpu : List ℚ) (elapsed : ℚ)
    (hne : T ≠ []) :
    (sortDesc T).Sorted (· ≥ ·) ∧
    List.Perm (sortDesc T) T ∧
    (computeSnapshot name T cpu gpu elapsed).fps_1_low =
      1000 / meanQ ((sortDesc T).take (max 1 ⌈(T.length : ℚ) * (1 / 100)⌉₊)) ∧
    (computeSnapshot name T cpu gpu elapsed).fps_01_low =
      1000 / meanQ ((sortDesc T).take (max 1 ⌈(T.length : ℚ) * (1 / 1000)⌉₊)) ∧
    1 ≤ ((sortDesc T).take (max 1 ⌈(T.length : ℚ) * (1 / 100)⌉₊)).length ∧
    1 ≤ ((sortDesc T).take (max 1 ⌈(T.length : ℚ) * (1 / 1000)⌉₊)).length := by
  have hlen : 0 < T.length := List.length_pos.mpr hne
  refine ⟨sortDesc_sorted T, sortDesc_perm T, rfl, rfl, ?len1, ?len2⟩
  · rw [List.length_take, sortDesc_length]
    omega
  · rw [List.length_take, sortDesc_length]
    omega

/-- Witness for C2 at the window [10, 100, 20]. -/
theorem C2_low_metrics_witness :
    (sortDesc [10, 100, 20]).Sorted (· ≥ ·) ∧
    List.Perm (sortDesc [10, 100, 20]) [10, 100, 20] ∧
    (computeSnapshot "game.exe" [10, 100, 20] [] [] 0).fps_1_low =
      1000 / meanQ ((sortDesc [10, 100, 20]).take
        (max 1 ⌈(([10, 100, 20] : List ℚ).length : ℚ) * (1 / 100)⌉₊)) ∧
    (computeSnapshot "game.exe" [10, 100, 20] [] [] 0).fps_01_low =
      1000 / meanQ ((sortDesc [10, 100, 20]).take
        (max 1 ⌈(([10, 100, 20] : List ℚ).length : ℚ) * (1 / 1000)⌉₊)) ∧
    1 ≤ ((sortDesc [10, 100, 20]).take
      (max 1 ⌈(([10, 100, 20] : List ℚ).length : ℚ) * (1 / 100)⌉₊)).length ∧
    1 ≤ ((sortDesc [10, 100, 20]).take
      (max 1 ⌈(([10, 100, 20] : List ℚ).length : ℚ) * (1 / 1000)⌉₊)).length :=
  C2_low_metrics "game.exe" [10, 100, 20] [] [] 0 (by simp)

/-- C3: For every non-empty positive frame-time set with at least one
differing value, 0.1% low ≤ 1% low ≤ average FPS ≤ maximum instantaneous
FPS; and in the session summary, min_fps ≤ avg_fps ≤ max_fps whenever
total_frames > 0. -/
theorem C3_metric_ordering (name : String) (cpu gpu : List ℚ)
    (elapsed dur : ℚ) (T : List ℚ) (hne : T ≠ []) (hpos : ∀ t ∈ T, 0 < t)
    (hdiff : ∃ a ∈ T, ∃ b ∈ T, a ≠ b) :
    ((computeSnapshot name T cpu gpu elapsed).fps_01_low ≤
        (computeSnapshot name T cpu gpu elapsed).fps_1_low ∧
      (computeSnapshot name T cpu gpu elapsed).fps_1_low ≤
        (computeSnapshot name T cpu gpu elapsed).fps ∧
      (computeSnapshot name T cpu gpu elapsed).fps ≤ maxInstFps T) ∧
    (0 < (finalizeSession name T dur).total_frames →
      (finalizeSession name T dur).min_fps ≤
          (finalizeSession name T dur).avg_fps ∧
        (finalizeSession name T dur).avg_fps ≤
          (finalizeSession name T dur).max_fps) := by
  have hEmpty : T.isEmpty = false := by simpa using hne
  constructor
  · exact ⟨fps01Low_le_fps1Low T hne hpos, fps1Low_le_windowFps T hne hpos,
      windowFps_le_maxInstFps T hne hpos⟩
  · intro _
    have h1 := minInstFps_le_windowFps T hne hpos
    have h2 := windowFps_le_maxInstFps T hne hpos
    have hw : windowFps T = 1000 * T.length / T.sum := by
      unfold windowFps
      rw [if_neg (by simpa using hne)]
    rw [hw] at h1 h2
    simp only [finalizeSession, hEmpty, Bool.false_eq_true, if_false]
    exact ⟨h1, h2⟩

/-- Witness for C3 at the window [10, 20]. -/
theorem C3_metric_ordering_witness :
    ((computeSnapshot "game.exe" [10, 20] [] [] 0).fps_01_low ≤
        (computeSnapshot "game.exe" [10, 20] [] [] 0).fps_1_low ∧
      (computeSnapshot "game.exe" [10, 20] [] [] 0).fps_1_low ≤
        (computeSnapshot "game.exe" [10, 20] [] [] 0).fps ∧
      (computeSnapshot "game.exe" [10, 20] [] [] 0).fps ≤
        maxInstFps [10, 20]) ∧
    (0 < (finalizeSession "game.exe" [10, 20] 1).total_frames →
      (finalizeSession "game.exe" [10, 20] 1).min_fps ≤
          (finalizeSession "game.exe" [10, 20] 1).avg_fps ∧
        (finalizeSession "game.exe" [10, 20] 1).avg_fps ≤
          (finalizeSession "game.exe" [10, 20] 1).max_fps) :=
  C3_metric_ordering "game.exe" [] [] 0 1 [10, 20] (by simp)
    (by intro t ht; simp only [List.mem_cons, List.not_mem_nil, or_false] at ht
        rcases ht with rfl | rfl <;> norm_num)
    ⟨10, by simp, 20, by simp, by norm_num⟩

/-- C4 counterexample: the frontend listener for the monitoring-started kind
subscribes to the event name "fps-started", not the emitted-events table's
name "monitoring-started". -/
theorem C4_event_names_counterexample :
    frontendEventName FpsEventKind.started ≠
      specTableEventName FpsEventKind.started := by
  decide

/-- C4 (amended): for every lifecycle event kind of the emitted-events
table, the frontend listener subscribes with the payload type given in the
table, but under the names fps-started, fps-update, fps-stopped,
fps-session-complete and fps-error rather than the table's names. -/
theorem C4_event_names_amended :
    (∀ k, frontendPayload k = specTablePayload k) ∧
    frontendEventName FpsEventKind.started = "fps-started" ∧
    frontendEventName FpsEventKind.update = "fps-update" ∧
    frontendEventName FpsEventKind.stopped = "fps-stopped" ∧
    frontendEventName FpsEventKind.sessionComplete = "fps-session-complete" ∧
    frontendEventName FpsEventKind.error = "fps-error" := by
  refine ⟨?payloads, rfl, rfl, rfl, rfl, rfl⟩
  intro k
  cases k <;> rfl

/-- C5: The engine exposes exactly the three-command surface start (one
string parameter, ok or error), stop (ok) and status, where status returns
a record with fields running (boolean), optional process_name (string) and
optional current_fps (float). -/
theorem C5_command_surface :
    fpsMonitorCommands.map (fun c => (c.params, c.ret)) =
      [([ParamTy.string], RetTy.unit), ([], RetTy.unit),
        ([], RetTy.statusRecord)] ∧
    fpsMonitorCommands.length = 3 ∧
    fpsStatusFields = specStatusFields := by
  exact ⟨rfl, rfl, rfl⟩

/-- C6: For every process-name input whose trimmed value is empty, start is
rejected as invalid input: the page's handleStart issues no start command to
the backend and leaves the monitoring display state unchanged, and the
engine's start command (from Stopped) returns InvalidInput without a state
change. -/
theorem C6_empty_name_rejected (ps : MonitorPageState) (s : EngineState)
    (name : String) (hempty : jsTrim name = "") :
    (handleStart ps name).2 = false ∧
    (handleStart ps name).1.running = ps.running ∧
    (handleStart ps name).1.session = ps.session ∧
    (handleStart ps name).1.snapshots = ps.snapshots ∧
    (handleStart ps name).1.chart = ps.chart ∧
    (s.kind = EngineStateKind.stopped →
      startMonitor s name = (Except.error StartError.invalidInput, s)) := by
  unfold handleStart
  rw [if_pos hempty]
  refine ⟨rfl, rfl, rfl, rfl, rfl, ?engine⟩
  intro hstop
  unfold startMonitor
  rw [if_neg (by simp [hstop]), if_pos hempty]

/-- Witness for C6 at the whitespace input " " and a dirty page state. -/
theorem C6_empty_name_rejected_witness :
    (handleStart (⟨false, some "old", none, none, [], []⟩ : MonitorPageState) " ").2 = false ∧
    (handleStart (⟨false, some "old", none, none, [], []⟩ : MonitorPageState) " ").1.running = false ∧
    (handleStart (⟨false, some "old", none, none, [], []⟩ : MonitorPageState) " ").1.session = none ∧
    (handleStart (⟨false, some "old", none, none, [], []⟩ : MonitorPageState) " ").1.snapshots = [] ∧
    (handleStart (⟨false, some "old", none, none, [], []⟩ : MonitorPageState) " ").1.chart = [] ∧
    (EngineState.kind (⟨EngineStateKind.stopped, none, [], 0⟩ : EngineState) = EngineStateKind.stopped →
      startMonitor (⟨EngineStateKind.stopped, none, [], 0⟩ : EngineState) " " =
        (Except.error StartError.invalidInput,
          (⟨EngineStateKind.stopped, none, [], 0⟩ : EngineState))) :=
  C6_empty_name_rejected (⟨false, some "old", none, none, [], []⟩ : MonitorPageState)
    (⟨EngineStateKind.stopped, none, [], 0⟩ : EngineState) " " (by decide)

/-- C7: A monitoring run that ends with zero frames still produces the
session-complete summary, with total_frames = 0 and all rate statistics 0,
and a monitoring-error event is additionally emitted. -/
theorem C7_zero_frames_summary (name : String) (dur : ℚ) :
    (finalizeSession name [] dur).total_frames = 0 ∧
    (finalizeSession name [] dur).avg_fps = 0 ∧
    (finalizeSession name [] dur).fps_1_low = 0 ∧
    (finalizeSession name [] dur).fps_01_low = 0 ∧
    (finalizeSession name [] dur).max_fps = 0 ∧
    (finalizeSession name [] dur).min_fps = 0 ∧
    EngineEvent.sessionComplete (finalizeSession name [] dur) ∈
      endOfStreamEvents name [] dur ∧
    EngineEvent.monitoringError noFramesError ∈
      endOfStreamEvents name [] dur := by
  refine ⟨rfl, rfl, rfl, rfl, rfl, rfl, ?complete, ?err⟩
  · simp [endOfStreamEvents]
  · simp [endOfStreamEvents]

/-- C8: While a session is active (Starting or Running), a second call to
start returns AlreadyRunning and leaves the engine state unchanged. -/
theorem C8_second_start_rejected (s : EngineState) (name : String)
    (hact : s.kind = EngineStateKind.starting ∨
      s.kind = EngineStateKind.running) :
    startMonitor s name = (Except.error StartError.alreadyRunning, s) := by
  have hne : s.kind ≠ EngineStateKind.stopped := by
    rcases hact with h | h <;> simp [h]
  unfold startMonitor
  rw [if_pos hne]

/-- Witness for C8 with a running session. -/
theorem C8_second_start_rejected_witness :
    startMonitor (⟨EngineStateKind.running, some "cs2.exe", [10], 1⟩ : EngineState) "other.exe" =
      (Except.error StartError.alreadyRunning,
        (⟨EngineStateKind.running, some "cs2.exe", [10], 1⟩ : EngineState)) :=
  C8_second_start_rejected
    (⟨EngineStateKind.running, some "cs2.exe", [10], 1⟩ : EngineState)
    "other.exe" (Or.inr rfl)

lemma suffix_append_one (l : List FpsSnapshot) (e : FpsSnapshot) (k : ℕ) :
    l.drop (l.length - k) ++ [e] =
      (l ++ [e]).drop ((l ++ [e]).length - (k + 1)) := by
  rw [List.length_append]
  have heq : l.length + [e].length - (k + 1) = l.length - k := by
    simp only [List.length_cons, List.length_nil]
    omega
  rw [heq, List.drop_append_of_le_length (Nat.sub_le _ _)]

lemma suffix_suffix (l : List FpsSnapshot) {k m : ℕ} (hkm : k ≤ m) :
    (l.drop (l.length - m)).drop ((l.drop (l.length - m)).length - k) =
      l.drop (l.length - k) := by
  rw [List.length_drop, List.drop_drop]
  congr 1
  omega

lemma chartAfter_eq (snaps : List FpsSnapshot) :
    chartAfter snaps = snaps.drop (snaps.length - MAX_CHART_POINTS) := by
  induction snaps using List.reverseRecOn with
  | nil => rfl
  | append_singleton l e ih =>
    unfold chartAfter at ih ⊢
    rw [List.foldl_append, List.foldl_cons, List.foldl_nil, ih]
    unfold pushSnapshot jsSliceLast
    have h119 : MAX_CHART_POINTS - 1 = 119 := rfl
    have h120 : MAX_CHART_POINTS = 120 := rfl
    rw [h119, h120, suffix_suffix l (by norm_num : (119 : ℕ) ≤ 120)]
    exact suffix_append_one l e 119

/-- C9: After any sequence of fps-update events, the chart contains exactly
the most recent min(n, 120) snapshots in arrival order — in particular at
most MAX_CHART_POINTS = 120 snapshots. -/
theorem C9_chart_bounded (snaps : List FpsSnapshot) :
    chartAfter snaps = snaps.drop (snaps.length - MAX_CHART_POINTS) ∧
    (chartAfter snaps).length ≤ MAX_CHART_POINTS := by
  refine ⟨chartAfter_eq snaps, ?bound⟩
  rw [chartAfter_eq snaps, List.length_drop]
  omega

/-- C10 counterexample: display state from an earlier run does survive into
the new run — starting with a non-empty name leaves the `latest` snapshot of
the previous run on the stat cards, because handleStart never calls
setLatest. -/
theorem C10_latest_survives_counterexample :
    (handleStart
        (⟨true, some "old", none, some (computeSnapshot "g" [10] [] [] 1),
          [], []⟩ : MonitorPageState) "cs2.exe").1.latest =
      some (computeSnapshot "g" [10] [] [] 1) ∧
    some (computeSnapshot "g" [10] [] [] 1) ≠ (none : Option FpsSnapshot) := by
  have hok : jsTrim "cs2.exe" ≠ "" := by decide
  unfold handleStart
  rw [if_neg hok]
  exact ⟨rfl, by simp⟩

/-- C10 (amended): Whenever start is initiated with a non-empty (after
trimming) process name, handleStart clears the previous run's error message,
session summary and chart snapshots before invoking the start command — but
the previous run's `latest` snapshot is not cleared, so it survives on the
stat cards until the first fps-update of the new run. -/
theorem C10_start_clears_state (ps : MonitorPageState) (name : String)
    (hok : jsTrim name ≠ "") :
    (handleStart ps name).1.error = none ∧
    (handleStart ps name).1.session = none ∧
    (handleStart ps name).1.snapshots = [] ∧
    (handleStart ps name).1.chart = [] ∧
    (handleStart ps name).1.latest = ps.latest ∧
    (handleStart ps name).2 = true := by
  unfold handleStart
  rw [if_neg hok]
  exact ⟨rfl, rfl, rfl, rfl, rfl, rfl⟩

/-- Witness for C10 at the input "cs2.exe" and a dirty page state. -/
theorem C10_start_clears_state_witness :
    (handleStart (⟨true, some "old", none, none, [], []⟩ : MonitorPageState) "cs2.exe").1.error = none ∧
    (handleStart (⟨true, some "old", none, none, [], []⟩ : MonitorPageState) "cs2.exe").1.session = none ∧
    (handleStart (⟨true, some "old", none, none, [], []⟩ : MonitorPageState) "cs2.exe").1.snapshots = [] ∧
    (handleStart (⟨true, some "old", none, none, [], []⟩ : MonitorPageState) "cs2.exe").1.chart = [] ∧
    (handleStart (⟨true, some "old", none, none, [], []⟩ : MonitorPageState) "cs2.exe").1.latest =
      MonitorPageState.latest (⟨true, some "old", none, none, [], []⟩ : MonitorPageState) ∧
    (handleStart (⟨true, some "old", none, none, [], []⟩ : MonitorPageState) "cs2.exe").2 = true :=
  C10_start_clears_state (⟨true, some "old", none, none, [], []⟩ : MonitorPageState)
    "cs2.exe" (by decide)

end GameBench
